import Mathlib

/-!
Verification of the dottie front-end against its specification.

The development shallowly embeds the four source files:
  * `src/frontend/src/pages/assessment/history/page.tsx` (history view formatters),
  * the chat modal component and `src/frontend/src/pages/chat/FullScreenChat.tsx`
    (send / new-conversation / delete flows, modelled as event traces),
  * `src/frontend/src/pages/user/password-form.tsx` (validation and submission).

JavaScript truthiness on optional strings (where `undefined` and `""` are both
falsy) is modelled by `truthy : Option String → Bool`.  Asynchronous handlers
are modelled as pure functions from the component state and the results of the
network calls they await to the list of primitive effects (state updates,
network calls, toasts) they perform, in program order; the React `setState`
semantics is the left fold `applyEvents` of those effects over the state.
-/

namespace Dottie

/-- JS truthiness of an optional string: `undefined`/absent and `""` are falsy. -/
def truthy : Option String → Bool
  | none => false
  | some s => !(s == "")

/-! ## History view (`history/page.tsx`)

String primitives are embedded as structurally recursive functions on the
character list of the string (so that every formatter evaluates by kernel
reduction): `splitDash` is JS `split('-')`, `joinDash` is JS `join('-')`,
`jsTrim` is JS `trim()`. -/

/-- JS `s.split('-')` on the character list: splitting the empty string yields
one empty part, every `'-'` starts a new part. -/
def splitDash : List Char → List (List Char)
  | [] => [[]]
  | c :: cs =>
    if c = '-' then [] :: splitDash cs
    else
      match splitDash cs with
      | [] => [[c]]
      | w :: ws => (c :: w) :: ws

/-- JS `parts.join('-')`. -/
def joinDash : List (List Char) → List Char
  | [] => []
  | [w] => w
  | w :: ws => w ++ '-' :: joinDash ws

/-- JS `word.charAt(0).toUpperCase() + word.slice(1)`: on the empty string both
parts are empty; otherwise the first character is upper-cased and the rest kept. -/
def capFirst : List Char → List Char
  | [] => []
  | c :: cs => c.toUpper :: cs

/-- The spec's wording of the fallback rule: split on hyphens, upper-case the
first character of each part, rejoin with hyphens. -/
def titleCaseHyphens (s : String) : String :=
  String.mk (joinDash ((splitDash s.data).map capFirst))

/-- `formatValue` from `history/page.tsx` lines 16-28.  `!value` is true for a
missing value and for the empty string. -/
def formatValue (value : Option String) : String :=
  match value with
  | none => "Not provided"
  | some s =>
    if s = "" then "Not provided"
    else if s = "not-sure" then "Not sure"
    else if s = "varies" then "Varies"
    else if s = "under-13" then "Under 13"
    else if s = "8-plus" then "8+ days"
    else String.mk (joinDash ((splitDash s.data).map capFirst))

/-- The `" years"` suffix expression `data?.age && data.age !== 'under-13' ? ' years' : ''`
from `history/page.tsx` line 150. -/
def ageSuffix (age : Option String) : String :=
  match age with
  | none => ""
  | some s => if s ≠ "" ∧ s ≠ "under-13" then " years" else ""

/-- The `" days"` suffix expression
`data?.cycleLength && !['other','varies','not-sure'].includes(data.cycleLength) ? ' days' : ''`
from `history/page.tsx` lines 157-160. -/
def cycleSuffix (cycleLength : Option String) : String :=
  match cycleLength with
  | none => ""
  | some s => if s ≠ "" ∧ s ≠ "other" ∧ s ≠ "varies" ∧ s ≠ "not-sure" then " days" else ""

/-- The optional fields of `assessment_data` used by the history card. -/
structure AssessmentData where
  pattern : Option String
  age : Option String
  cycleLength : Option String
  date : Option String
deriving DecidableEq, Repr

/-- The pattern badge text rendered at `history/page.tsx` line 138. -/
def badge (d : AssessmentData) : String := formatValue d.pattern

/-- The age line rendered at `history/page.tsx` lines 146-151. -/
def ageLine (d : AssessmentData) : String :=
  "Age: " ++ formatValue d.age ++ ageSuffix d.age

/-- The cycle-length line rendered at `history/page.tsx` lines 152-161. -/
def cycleLine (d : AssessmentData) : String :=
  "Cycle Length: " ++ formatValue d.cycleLength ++ cycleSuffix d.cycleLength

/-- The spec's worked example record. -/
def exampleAssessment : AssessmentData :=
  { pattern := some "irregular-periods", age := some "18-24",
    cycleLength := some "not-sure", date := some "2024-03-05" }

/-- A parsed calendar date. -/
structure CalDate where
  year : Nat
  month : Nat
  day : Nat
deriving DecidableEq, Repr

def isLeapYear (y : Nat) : Bool :=
  (y % 4 == 0 && y % 100 != 0) || y % 400 == 0

def daysInMonth (y m : Nat) : Nat :=
  if m = 2 then (if isLeapYear y then 29 else 28)
  else if m = 4 ∨ m = 6 ∨ m = 9 ∨ m = 11 then 30
  else 31

def allDigits (l : List Char) : Bool :=
  !l.isEmpty && l.all Char.isDigit

/-- Decimal value of a digit list (only used under an `allDigits` guard). -/
def digitsToNat (l : List Char) : Nat :=
  l.foldl (fun n c => n * 10 + (c.toNat - 48)) 0

/-- Models the `parseISO` + `isValid` pipeline of the date-fns library as used
by `formatDate`, restricted to complete calendar dates `YYYY-MM-DD`; any other
input is treated as unparsable (`none` plays the role of an invalid date). -/
def parseISO (s : String) : Option CalDate :=
  match splitDash s.data with
  | [ys, ms, ds] =>
    if ys.length = 4 ∧ allDigits ys ∧ ms.length = 2 ∧ allDigits ms ∧
        ds.length = 2 ∧ allDigits ds then
      let y := digitsToNat ys
      let m := digitsToNat ms
      let d := digitsToNat ds
      if 1 ≤ m ∧ m ≤ 12 ∧ 1 ≤ d ∧ d ≤ daysInMonth y m then some ⟨y, m, d⟩ else none
    else none
  | _ => none

def monthAbbrev : Nat → String
  | 1 => "Jan" | 2 => "Feb" | 3 => "Mar" | 4 => "Apr"
  | 5 => "May" | 6 => "Jun" | 7 => "Jul" | 8 => "Aug"
  | 9 => "Sep" | 10 => "Oct" | 11 => "Nov" | 12 => "Dec"
  | _ => ""

/-- The date-fns format string `MMM d, yyyy`: abbreviated month, unpadded day,
year padded to four digits. -/
def formatMMMdyyyy (d : CalDate) : String :=
  let ys := toString d.year
  monthAbbrev d.month ++ " " ++ toString d.day ++ ", " ++
    String.mk (List.replicate (4 - ys.length) '0') ++ ys

/-- `formatDate` from `history/page.tsx` lines 30-41: a falsy date string gives
`"Unknown date"`, an unparsable one `"Invalid date"` (the `try`/`catch` and the
`isValid` check are both folded into `parseISO` returning `none`). -/
def formatDate (dateString : Option String) : String :=
  match dateString with
  | none => "Unknown date"
  | some s =>
    if s = "" then "Unknown date"
    else
      match parseISO s with
      | none => "Invalid date"
      | some d => formatMMMdyyyy d

/-! ## Chat surfaces (`ChatModal` and `FullScreenChat.tsx`)

Each asynchronous handler is embedded as a pure function from the component
state it closes over and the results of the network calls it awaits to the
list of primitive effects it performs, in program order.  `applyEvents` folds
the state-updating effects over a state, which is exactly the sequential
`setState` semantics of the single-threaded event loop. -/

/-- JS `s.trim()`. -/
def jsTrim (s : String) : String :=
  String.mk (((s.data.dropWhile Char.isWhitespace).reverse.dropWhile
    Char.isWhitespace).reverse)

inductive Role where
  | user
  | assistant
deriving DecidableEq, Repr

/-- The local chat `Message` record `{ role, content }`. -/
structure Message where
  role : Role
  content : String
deriving DecidableEq, Repr

/-- A `Conversation` summary `{ id, preview, lastMessageDate }`. -/
structure Conversation where
  id : String
  preview : String
  lastMessageDate : String
deriving DecidableEq, Repr

/-- One primitive effect of a chat handler: a state update (`set…`), a network
call (`call…`), or a toast notification. -/
inductive ChatEvent where
  | appendMessage (m : Message)
  | setMessages (ms : List Message)
  | setInput (s : String)
  | setLoading (b : Bool)
  | setConversationId (cid : Option String)
  | setConversations (cs : List Conversation)
  | callSendMessage (content : String)
  | callGetHistory
  | callGetAIFeedback (text : String)
  | callDeleteConversation (cid : String)
  | callGetConversation (cid : String)
  | toast (msg : String)
deriving DecidableEq, Repr

/-- Is the event a network call? -/
def ChatEvent.isNetworkCall : ChatEvent → Bool
  | .callSendMessage _ => true
  | .callGetHistory => true
  | .callGetAIFeedback _ => true
  | .callDeleteConversation _ => true
  | .callGetConversation _ => true
  | _ => false

def networkCalls (es : List ChatEvent) : List ChatEvent :=
  es.filter ChatEvent.isNetworkCall

/-- The `FullscreenChat` component state (`useState` hooks of
`FullScreenChat.tsx` lines 24-28). -/
structure FSState where
  messages : List Message
  input : String
  isLoading : Bool
  conversations : List Conversation
  currentConversationId : Option String
deriving DecidableEq, Repr

/-- The `ChatModal` component state (`useState` hooks of the modal, lines 27-29). -/
structure ModalState where
  messages : List Message
  input : String
  isLoading : Bool
deriving DecidableEq, Repr

def applyEvent (st : FSState) : ChatEvent → FSState
  | .appendMessage m => { st with messages := st.messages ++ [m] }
  | .setMessages ms => { st with messages := ms }
  | .setInput s => { st with input := s }
  | .setLoading b => { st with isLoading := b }
  | .setConversationId cid => { st with currentConversationId := cid }
  | .setConversations cs => { st with conversations := cs }
  | _ => st

def applyEvents (st : FSState) (es : List ChatEvent) : FSState :=
  es.foldl applyEvent st

def applyEventModal (st : ModalState) : ChatEvent → ModalState
  | .appendMessage m => { st with messages := st.messages ++ [m] }
  | .setMessages ms => { st with messages := ms }
  | .setInput s => { st with input := s }
  | .setLoading b => { st with isLoading := b }
  | _ => st

def applyEventsModal (st : ModalState) (es : List ChatEvent) : ModalState :=
  es.foldl applyEventModal st

/-- Result of the AI-feedback call `getAIFeedback`. -/
inductive AIResult where
  | ok (reply : String)
  | err
deriving DecidableEq, Repr

/-- Result of the persistence call `sendMessage`; on success the response may
or may not carry a `conversationId` (`response?.conversationId`). -/
inductive SendMsgResult where
  | ok (conversationId : Option String)
  | err
deriving DecidableEq, Repr

/-- Result of `getHistory` (a non-array success is normalised to `[]` by the
code, so a success just carries the resulting list). -/
inductive HistoryResult where
  | ok (convs : List Conversation)
  | err
deriving DecidableEq, Repr

/-- The fixed fallback apology appended when the AI call fails. -/
def fallbackMessage : String :=
  "I apologize, but I\x27m having trouble processing your request right now. Please try again later."

/-- The assistant message content produced by step (f) of a send. -/
def assistantReply : AIResult → String
  | .ok reply => reply
  | .err => fallbackMessage

/-- JS `messageText || input.trim()`: an absent or empty `messageText` is falsy
and falls back to the trimmed input. -/
def effectiveText (input : String) (messageText : Option String) : String :=
  match messageText with
  | none => jsTrim input
  | some t => if t = "" then jsTrim input else t

/-- `fetchConversations` (`FullScreenChat.tsx` lines 33-42): calls `getHistory`;
on success stores the list, on failure toasts and stores `[]`. -/
def fetchConversationsEvents (hr : HistoryResult) : List ChatEvent :=
  ChatEvent.callGetHistory ::
    match hr with
    | .ok cs => [.setConversations cs]
    | .err => [.toast "Failed to load conversations", .setConversations []]

/-- `handleSend` of `FullscreenChat` (`FullScreenChat.tsx` lines 44-99).
`st` is the state the callback closes over; `sr`, `hr`, `ar` are the results
of the awaited `sendMessage`, `fetchConversations` and `getAIFeedback` calls.
A falsy effective text or an in-flight send returns without any effect; the
inner `try`/`catch` around `sendMessage` toasts on failure and lets the AI
call proceed; the outer `catch` appends the fallback reply, and the `finally`
clears the loading flag. -/
def handleSendFSEvents (st : FSState) (messageText : Option String)
    (sr : SendMsgResult) (hr : HistoryResult) (ar : AIResult) : List ChatEvent :=
  let textToSend := effectiveText st.input messageText
  if textToSend = "" ∨ st.isLoading = true then []
  else
    [.setInput "", .appendMessage ⟨.user, textToSend⟩, .setLoading true,
      .callSendMessage textToSend] ++
    (match sr with
      | .ok (some cid) => ChatEvent.setConversationId (some cid) :: fetchConversationsEvents hr
      | .ok none => []
      | .err => [.toast "Failed to send message. Please try again."]) ++
    [.callGetAIFeedback textToSend, .appendMessage ⟨.assistant, assistantReply ar⟩,
      .setLoading false]

/-- `handleSend` of `ChatModal` (modal source lines 52-87): no persistence
call, only the AI-feedback call. -/
def handleSendModalEvents (st : ModalState) (messageText : Option String)
    (ar : AIResult) : List ChatEvent :=
  let textToSend := effectiveText st.input messageText
  if textToSend = "" ∨ st.isLoading = true then []
  else
    [.setInput "", .appendMessage ⟨.user, textToSend⟩, .setLoading true,
      .callGetAIFeedback textToSend, .appendMessage ⟨.assistant, assistantReply ar⟩,
      .setLoading false]

/-- `handleNewConversation` (`FullScreenChat.tsx` lines 141-149): clears the
conversation id, the messages and the input, resets the one-shot initial-send
ref to `false` (the returned Bool), and, when an `initialMessage` prop was
supplied (truthy), fires `handleSend(initialMessage)` against the closed-over
state `st`. -/
def handleNewConversation (st : FSState) (initialMessage : Option String)
    (sr : SendMsgResult) (hr : HistoryResult) (ar : AIResult) :
    List ChatEvent × Bool :=
  ([.setConversationId none, .setMessages [], .setInput ""] ++
    (match initialMessage with
      | some t => if t = "" then [] else handleSendFSEvents st (some t) sr hr ar
      | none => []),
   false)

/-- `handleDeleteConversation` (`FullScreenChat.tsx` lines 151-167): calls the
backend delete (`ok` is its success); on success refreshes the list, invokes
`handleNewConversation` when the deleted conversation is the active one, and
toasts success; on failure only toasts an error. -/
def handleDeleteConversationEvents (st : FSState) (cid : String) (ok : Bool)
    (hr : HistoryResult) (initialMessage : Option String) (sr : SendMsgResult)
    (hr2 : HistoryResult) (ar : AIResult) : List ChatEvent :=
  ChatEvent.callDeleteConversation cid ::
    (if ok then
      fetchConversationsEvents hr ++
      (if st.currentConversationId = some cid then
        (handleNewConversation st initialMessage sr hr2 ar).1
      else []) ++
      [.toast "Conversation deleted"]
    else [.toast "Failed to delete conversation"])

/-- One execution of the `sendInitialMessage` effect (modal lines 41-50,
`FullScreenChat.tsx` lines 175-184) with the render-time values: `o` is the
modal's `isOpen` conjunct (always true for the full-screen variant), `len` is
`messages.length`, `hasSent` the `hasSentInitialMessage` ref.  Returns the ref
value after the run and whether a send was triggered. -/
def initialEffectStep (o : Bool) (initialMessage : Option String) (len : Nat)
    (hasSent : Bool) : Bool × Bool :=
  if o && truthy initialMessage && (len == 0) && !hasSent then (true, true)
  else (hasSent, false)

/-- Total number of initial-prompt sends over a sequence of effect executions
(one `(isOpen, messages.length)` pair per re-render), threading the ref. -/
def runInitialEffects (initialMessage : Option String) :
    Bool → List (Bool × Nat) → Nat
  | _, [] => 0
  | hasSent, (o, len) :: rest =>
    let r := initialEffectStep o initialMessage len hasSent
    (if r.2 then 1 else 0) + runInitialEffects initialMessage r.1 rest

/-! ## Password change form (`password-form.tsx`) -/

/-- The three controlled fields of the form. -/
structure PasswordFormData where
  currentPassword : String
  newPassword : String
  confirmPassword : String
deriving DecidableEq, Repr

/-- The field-scoped error map (`errors` state); a JS object key that is never
set is `none`. -/
structure PasswordErrors where
  currentPassword : Option String
  newPassword : Option String
  confirmPassword : Option String
deriving DecidableEq, Repr

/-- The `newErrors` object built by `validate` (`password-form.tsx` lines 29-52). -/
def validateErrors (fd : PasswordFormData) : PasswordErrors :=
  { currentPassword :=
      if fd.currentPassword = "" then some "Current password is required" else none,
    newPassword :=
      if fd.newPassword = "" then some "New password is required"
      else if fd.newPassword.length < 8 then some "Password must be at least 8 characters"
      else none,
    confirmPassword :=
      if fd.newPassword ≠ fd.confirmPassword then some "Passwords do not match" else none }

/-- `Object.keys(newErrors).length === 0`. -/
def errorsEmpty (e : PasswordErrors) : Bool :=
  e.currentPassword.isNone && e.newPassword.isNone && e.confirmPassword.isNone

/-- One primitive effect of the password form submission: a state update, the
network call to the password-update endpoint (carrying the request body), or a
toast. -/
inductive PwEvent where
  | setErrors (e : PasswordErrors)
  | setLoading (b : Bool)
  | callUpdate (currentPassword newPassword : String)
  | setFormData (fd : PasswordFormData)
  | toast (msg : String)
deriving DecidableEq, Repr

/-- Result of the `axios.post('/api/user/pw/update', …)` call.  Rejections of
the HTTP client are `AxiosError` values carrying an optional response status
(`error.response?.status`); a network-level failure has no response, hence
`err none`. -/
inductive UpdateResult where
  | ok
  | err (status : Option Nat)
deriving DecidableEq, Repr

/-- `handleSubmit` (`password-form.tsx` lines 54-87): `validate()` always
stores the freshly computed error map; a non-empty map blocks submission
before any network call.  Otherwise the update endpoint is called with exactly
the current and new passwords; success toasts and clears all three fields, a
401 replaces the error map with only the current-password error and toasts,
any other failure toasts generically; `finally` clears the loading flag. -/
def handleSubmitEvents (fd : PasswordFormData) (r : UpdateResult) : List PwEvent :=
  let errs := validateErrors fd
  if errorsEmpty errs = false then [.setErrors errs]
  else
    [.setErrors errs, .setLoading true,
      .callUpdate fd.currentPassword fd.newPassword] ++
    (match r with
      | .ok => [.toast "Password updated successfully", .setFormData ⟨"", "", ""⟩]
      | .err status =>
        if status = some 401 then
          [.setErrors ⟨some "Current password is incorrect", none, none⟩,
            .toast "Current password is incorrect"]
        else [.toast "Failed to update password"]) ++
    [.setLoading false]

/-- The request bodies sent to the password-update endpoint by a list of
submission effects. -/
def requestBodies (es : List PwEvent) : List (String × String) :=
  es.filterMap fun e =>
    match e with
    | .callUpdate c n => some (c, n)
    | _ => none

/-! ## Helper lemmas -/

/-- Once the one-shot ref is set, no run of the initial-send effect ever sends
again (and the ref stays set). -/
lemma runInitialEffects_after_send (im : Option String) :
    ∀ runs : List (Bool × Nat), runInitialEffects im true runs = 0
  | [] => rfl
  | (o, len) :: rest => by
    simp [runInitialEffects, initialEffectStep, runInitialEffects_after_send im rest]

/-- Starting from an unset ref, at most one initial send happens over any
sequence of effect runs. -/
lemma runInitialEffects_le_one (im : Option String) :
    ∀ runs : List (Bool × Nat), runInitialEffects im false runs ≤ 1
  | [] => by simp [runInitialEffects]
  | (o, len) :: rest => by
    by_cases h : (o && truthy im && (len == 0) && !false) = true
    · obtain ⟨⟨ho, him2⟩, hlen⟩ : (o = true ∧ truthy im = true) ∧ len = 0 := by simpa using h
      simp [runInitialEffects, initialEffectStep, ho, him2, hlen, runInitialEffects_after_send]
    · simp only [runInitialEffects, initialEffectStep, if_neg h]
      simpa using runInitialEffects_le_one im rest

/-- With a truthy initial message, any effect-run sequence containing a run on
an open surface with an empty transcript triggers exactly one send. -/
lemma runInitialEffects_mem (im : Option String) (him : truthy im = true) :
    ∀ runs : List (Bool × Nat), (true, 0) ∈ runs → runInitialEffects im false runs = 1
  | (o, len) :: rest, hmem => by
    by_cases h : (o && truthy im && (len == 0) && !false) = true
    · obtain ⟨⟨ho, him2⟩, hlen⟩ : (o = true ∧ truthy im = true) ∧ len = 0 := by simpa using h
      simp [runInitialEffects, initialEffectStep, ho, him2, hlen, runInitialEffects_after_send]
    · rcases List.mem_cons.mp hmem with heq | hmem'
      · exfalso
        apply h
        have ho : o = true := (congrArg Prod.fst heq).symm
        have hlen : len = 0 := (congrArg Prod.snd heq).symm
        simp [ho, hlen, him]
      · simp only [runInitialEffects, initialEffectStep, if_neg h]
        simpa using runInitialEffects_mem im him rest hmem'

/-- A password-form submission sends either no request body or exactly the
current and new passwords. -/
lemma requestBodies_handleSubmit (fd : PasswordFormData) (r : UpdateResult) :
    requestBodies (handleSubmitEvents fd r) = [] ∨
    requestBodies (handleSubmitEvents fd r) = [(fd.currentPassword, fd.newPassword)] := by
  by_cases h : errorsEmpty (validateErrors fd) = false
  · left; simp [handleSubmitEvents, h, requestBodies]
  · right
    have h' : errorsEmpty (validateErrors fd) = true := by simpa using h
    rcases r with _ | status
    · simp [handleSubmitEvents, h', requestBodies]
    · by_cases hs : status = some 401 <;> simp [handleSubmitEvents, h', hs, requestBodies]

/-! ## Claim theorems -/

/-- Claim C1: the history view formats field values by a fixed mapping — a
missing (falsy) value renders as `"Not provided"`; the four special tokens map
to `"Not sure"`, `"Varies"`, `"Under 13"`, `"8+ days"`; every other value is
hyphen-split title-cased; the `" years"` suffix appears exactly when the age is
present (truthy) and not `under-13`, the `" days"` suffix exactly when the
cycle length is present (truthy) and not one of `other`/`varies`/`not-sure`;
and the worked example renders badge `"Irregular-Periods"`, age line
`"Age: 18-24 years"` and cycle line `"Cycle Length: Not sure"`. -/
theorem C1_history_field_formatting (s : String) (a c : Option String)
    (hs : s ≠ "")
    (hns : s ∉ (["not-sure", "varies", "under-13", "8-plus"] : List String)) :
    formatValue none = "Not provided" ∧
    formatValue (some "") = "Not provided" ∧
    formatValue (some "not-sure") = "Not sure" ∧
    formatValue (some "varies") = "Varies" ∧
    formatValue (some "under-13") = "Under 13" ∧
    formatValue (some "8-plus") = "8+ days" ∧
    formatValue (some s) = titleCaseHyphens s ∧
    (ageSuffix a = " years" ↔ truthy a = true ∧ a ≠ some "under-13") ∧
    (ageSuffix a ≠ " years" → ageSuffix a = "") ∧
    (cycleSuffix c = " days" ↔
      truthy c = true ∧ c ≠ some "other" ∧ c ≠ some "varies" ∧ c ≠ some "not-sure") ∧
    (cycleSuffix c ≠ " days" → cycleSuffix c = "") ∧
    badge exampleAssessment = "Irregular-Periods" ∧
    ageLine exampleAssessment = "Age: 18-24 years" ∧
    cycleLine exampleAssessment = "Cycle Length: Not sure" := by
  simp only [List.mem_cons, List.not_mem_nil, or_false] at hns
  push_neg at hns
  obtain ⟨h1, h2, h3, h4⟩ := hns
  refine ⟨by decide, by decide, by decide, by decide, by decide, by decide, ?_, ?_, ?_, ?_, ?_,
    by decide, by decide, by decide⟩
  · simp [formatValue, titleCaseHyphens, hs, h1, h2, h3, h4]
  · cases a with
    | none => simp [ageSuffix, truthy]
    | some s' =>
      by_cases hcase1 : s' = ""
      · subst hcase1; simp [ageSuffix, truthy]
      · by_cases hcase2 : s' = "under-13"
        · subst hcase2; simp [ageSuffix, truthy]
        · simp [ageSuffix, truthy, hcase1, hcase2]
  · cases a with
    | none => simp [ageSuffix]
    | some s' =>
      by_cases hcase1 : s' = ""
      · subst hcase1; simp [ageSuffix]
      · by_cases hcase2 : s' = "under-13"
        · subst hcase2; simp [ageSuffix]
        · simp [ageSuffix, hcase1, hcase2]
  · cases c with
    | none => simp [cycleSuffix, truthy]
    | some s' =>
      by_cases hcase1 : s' = ""
      · subst hcase1; simp [cycleSuffix, truthy]
      · by_cases hcase2 : s' = "other"
        · subst hcase2; simp [cycleSuffix, truthy]
        · by_cases hcase3 : s' = "varies"
          · subst hcase3; simp [cycleSuffix, truthy]
          · by_cases hcase4 : s' = "not-sure"
            · subst hcase4; simp [cycleSuffix, truthy]
            · simp [cycleSuffix, truthy, hcase1, hcase2, hcase3, hcase4]
  · cases c with
    | none => simp [cycleSuffix]
    | some s' =>
      by_cases hcase1 : s' = ""
      · subst hcase1; simp [cycleSuffix]
      · by_cases hcase2 : s' = "other"
        · subst hcase2; simp [cycleSuffix]
        · by_cases hcase3 : s' = "varies"
          · subst hcase3; simp [cycleSuffix]
          · by_cases hcase4 : s' = "not-sure"
            · subst hcase4; simp [cycleSuffix]
            · simp [cycleSuffix, hcase1, hcase2, hcase3, hcase4]

/-- Witness for C1 at a concrete input (`heavy-flow`, the spec's example record). -/
theorem C1_history_field_formatting_witness :
    formatValue (some "heavy-flow") = titleCaseHyphens "heavy-flow" ∧
    ageLine exampleAssessment = "Age: 18-24 years" ∧
    cycleLine exampleAssessment = "Cycle Length: Not sure" := by
  obtain ⟨-, -, -, -, -, -, h7, -, -, -, -, -, h13, h14⟩ :=
    C1_history_field_formatting "heavy-flow" (some "18-24") (some "not-sure")
      (by decide) (by decide)
  exact ⟨h7, h13, h14⟩

/-- Claim C2: on both chat surfaces, a non-trivial send appends the user
message strictly before the corresponding assistant message (AI reply on
success, fixed apology fallback on failure), and the loading flag is false
again once the send completes, regardless of the AI outcome (`ar`, `ar'`
range over success and failure) and of the persistence outcome. -/
theorem C2_send_ordering (st : FSState) (mst : ModalState) (mt mt' : Option String)
    (sr : SendMsgResult) (hr : HistoryResult) (ar ar' : AIResult)
    (h1 : effectiveText st.input mt ≠ "") (h2 : st.isLoading = false)
    (h3 : effectiveText mst.input mt' ≠ "") (h4 : mst.isLoading = false) :
    (applyEvents st (handleSendFSEvents st mt sr hr ar)).messages =
      st.messages ++ [⟨.user, effectiveText st.input mt⟩, ⟨.assistant, assistantReply ar⟩] ∧
    (applyEvents st (handleSendFSEvents st mt sr hr ar)).isLoading = false ∧
    (applyEventsModal mst (handleSendModalEvents mst mt' ar')).messages =
      mst.messages ++ [⟨.user, effectiveText mst.input mt'⟩, ⟨.assistant, assistantReply ar'⟩] ∧
    (applyEventsModal mst (handleSendModalEvents mst mt' ar')).isLoading = false := by
  refine ⟨?_, ?_, ?_, ?_⟩ <;>
    rcases sr with cid | _ <;> try rcases cid with _ | c
  all_goals cases hr <;> cases ar <;> cases ar' <;>
    simp [handleSendFSEvents, handleSendModalEvents, applyEvents, applyEventsModal,
      applyEvent, applyEventModal, fetchConversationsEvents, assistantReply,
      h1, h2, h3, h4]

/-- Witness for C2 at concrete inputs (full-screen success, modal AI failure). -/
theorem C2_send_ordering_witness :
    (applyEvents ⟨[], "", false, [], none⟩
        (handleSendFSEvents ⟨[], "", false, [], none⟩ (some "hi")
          (.ok none) .err (.ok "fine"))).messages =
      [⟨.user, "hi"⟩, ⟨.assistant, "fine"⟩] ∧
    (applyEvents ⟨[], "", false, [], none⟩
        (handleSendFSEvents ⟨[], "", false, [], none⟩ (some "hi")
          (.ok none) .err (.ok "fine"))).isLoading = false ∧
    (applyEventsModal ⟨[], "", false⟩
        (handleSendModalEvents ⟨[], "", false⟩ (some "yo") .err)).messages =
      [⟨.user, "yo"⟩, ⟨.assistant, fallbackMessage⟩] ∧
    (applyEventsModal ⟨[], "", false⟩
        (handleSendModalEvents ⟨[], "", false⟩ (some "yo") .err)).isLoading = false := by
  exact C2_send_ordering ⟨[], "", false, [], none⟩ ⟨[], "", false⟩ (some "hi") (some "yo")
    (.ok none) .err (.ok "fine") .err (by decide) rfl (by decide) rfl

/-- Counterexample to claim C3 as stated: an explicitly supplied message text
consisting of one space is whitespace-only, yet the send attempt is not a
no-op — the guard `messageText || input.trim()` does not trim an explicit
`messageText`, so the message list changes and network calls are made. -/
theorem C3_noop_counterexample :
    jsTrim " " = "" ∧
    handleSendFSEvents ⟨[], "", false, [], none⟩ (some " ") .err .err .err ≠ [] ∧
    (applyEvents ⟨[], "", false, [], none⟩
      (handleSendFSEvents ⟨[], "", false, [], none⟩ (some " ") .err .err .err)).messages ≠
      ([] : List Message) ∧
    ChatEvent.callSendMessage " " ∈
      handleSendFSEvents ⟨[], "", false, [], none⟩ (some " ") .err .err .err := by
  decide

/-- Claim C3 (amended): on either chat surface, if the effective text to send
— the explicit message text when truthy, otherwise the trimmed input (so in
particular when no explicit text is supplied and the input is empty or
whitespace-only) — is empty, or a send is already in progress, the attempt is
a no-op: no effects at all, hence state unchanged and no network call. -/
theorem C3_noop_amended (st : FSState) (mst : ModalState) (mt mt' : Option String)
    (sr : SendMsgResult) (hr : HistoryResult) (ar ar' : AIResult)
    (h : effectiveText st.input mt = "" ∨ st.isLoading = true)
    (h' : effectiveText mst.input mt' = "" ∨ mst.isLoading = true) :
    handleSendFSEvents st mt sr hr ar = [] ∧
    applyEvents st (handleSendFSEvents st mt sr hr ar) = st ∧
    networkCalls (handleSendFSEvents st mt sr hr ar) = [] ∧
    handleSendModalEvents mst mt' ar' = [] ∧
    applyEventsModal mst (handleSendModalEvents mst mt' ar') = mst ∧
    networkCalls (handleSendModalEvents mst mt' ar') = [] := by
  have e1 : handleSendFSEvents st mt sr hr ar = [] := by
    simp only [handleSendFSEvents]
    rw [if_pos h]
  have e2 : handleSendModalEvents mst mt' ar' = [] := by
    simp only [handleSendModalEvents]
    rw [if_pos h']
  exact ⟨e1, by rw [e1]; rfl, by rw [e1]; rfl, e2, by rw [e2]; rfl, by rw [e2]; rfl⟩

/-- Witness for the amended C3: whitespace-only input with no explicit text
(full-screen) and an in-flight send (modal) are both no-ops. -/
theorem C3_noop_amended_witness :
    handleSendFSEvents ⟨[], "   ", false, [], none⟩ none .err .err .err = [] ∧
    handleSendModalEvents ⟨[], "", true⟩ none .err = [] := by
  obtain ⟨hfs, -, -, hm, -, -⟩ := C3_noop_amended ⟨[], "   ", false, [], none⟩ ⟨[], "", true⟩
    none none .err .err .err .err (Or.inl (by decide)) (Or.inr rfl)
  exact ⟨hfs, hm⟩

/-- Claim C4: with a truthy initial prompt, any sequence of initial-send
effect executions (one `(isOpen, messages.length)` pair per re-render)
triggers at most one send, and exactly one as soon as some run happens on an
open surface with an empty transcript; a run with the one-shot ref already set
leaves it set and never sends (so ordinary re-renders never reset it), and the
explicit new-conversation action is what resets the ref to `false`. -/
theorem C4_initial_send_once (im : Option String) (him : truthy im = true)
    (runs : List (Bool × Nat)) (st : FSState) (sr : SendMsgResult)
    (hr : HistoryResult) (ar : AIResult) :
    runInitialEffects im false runs ≤ 1 ∧
    ((true, 0) ∈ runs → runInitialEffects im false runs = 1) ∧
    runInitialEffects im true runs = 0 ∧
    (∀ o len, initialEffectStep o im len true = (true, false)) ∧
    (handleNewConversation st im sr hr ar).2 = false := by
  refine ⟨runInitialEffects_le_one im runs, fun hm => runInitialEffects_mem im him runs hm,
    runInitialEffects_after_send im runs, fun o len => ?_, rfl⟩
  simp [initialEffectStep]

/-- Witness for C4: three re-renders, one send. -/
theorem C4_initial_send_once_witness :
    runInitialEffects (some "start") false [(true, 0), (true, 2), (true, 0)] = 1 := by
  obtain ⟨-, h2, -, -, -⟩ := C4_initial_send_once (some "start") (by decide)
    [(true, 0), (true, 2), (true, 0)] ⟨[], "", false, [], none⟩ .err .err .err
  exact h2 (by decide)

/-- Counterexample to claim C5 as stated: the claim quantifies over every send
on either chat surface, but a successful send on the modal surface fires no
persistence call at all — its only network call is the AI-feedback request
(`ChatModal.handleSend` imports and calls only `getAIFeedback`; there is no
`sendMessage` in the modal). -/
theorem C5_persistence_flow_counterexample :
    handleSendModalEvents ⟨[], "", false⟩ (some "hello") (.ok "sure") ≠ [] ∧
    (applyEventsModal ⟨[], "", false⟩
      (handleSendModalEvents ⟨[], "", false⟩ (some "hello") (.ok "sure"))).messages =
      [⟨.user, "hello"⟩, ⟨.assistant, "sure"⟩] ∧
    networkCalls (handleSendModalEvents ⟨[], "", false⟩ (some "hello") (.ok "sure")) =
      [ChatEvent.callGetAIFeedback "hello"] := by
  decide

/-- Claim C5 (amended): on the full-screen surface, every non-trivial send
fires the persistence call; when it succeeds with a conversation id, the
active id is updated and the conversation list refresh (`getHistory`) is
fired and its result stored; when it fails, the failure toast is shown but
the AI-feedback call is still made and an assistant reply (or the fallback)
is still appended.  The modal surface never fires a persistence call. -/
theorem C5_persistence_flow (st : FSState) (mt : Option String)
    (sr : SendMsgResult) (hr : HistoryResult) (ar : AIResult)
    (h1 : effectiveText st.input mt ≠ "") (h2 : st.isLoading = false) :
    ChatEvent.callSendMessage (effectiveText st.input mt) ∈
      handleSendFSEvents st mt sr hr ar ∧
    (∀ cid, sr = .ok (some cid) →
      (applyEvents st (handleSendFSEvents st mt sr hr ar)).currentConversationId = some cid ∧
      ChatEvent.callGetHistory ∈ handleSendFSEvents st mt sr hr ar ∧
      (∀ cs, hr = .ok cs →
        (applyEvents st (handleSendFSEvents st mt sr hr ar)).conversations = cs)) ∧
    (sr = .err →
      ChatEvent.toast "Failed to send message. Please try again." ∈
        handleSendFSEvents st mt sr hr ar ∧
      ChatEvent.callGetAIFeedback (effectiveText st.input mt) ∈
        handleSendFSEvents st mt sr hr ar ∧
      (applyEvents st (handleSendFSEvents st mt sr hr ar)).messages =
        st.messages ++ [⟨.user, effectiveText st.input mt⟩,
          ⟨.assistant, assistantReply ar⟩]) ∧
    (∀ (mst : ModalState) (mt' : Option String) (ar' : AIResult) (c : String),
      ChatEvent.callSendMessage c ∉ handleSendModalEvents mst mt' ar') := by
  refine ⟨?_, ?_, ?_, ?_⟩
  · rcases sr with cid | _ <;> [rcases cid with _ | c; skip] <;> cases hr <;> cases ar <;>
      simp [handleSendFSEvents, fetchConversationsEvents, h1, h2]
  · rintro cid rfl
    refine ⟨?_, ?_, ?_⟩
    · cases hr <;> cases ar <;>
        simp [handleSendFSEvents, fetchConversationsEvents, applyEvents, applyEvent, h1, h2]
    · cases hr <;> cases ar <;>
        simp [handleSendFSEvents, fetchConversationsEvents, h1, h2]
    · rintro cs rfl
      cases ar <;>
        simp [handleSendFSEvents, fetchConversationsEvents, applyEvents, applyEvent, h1, h2]
  · rintro rfl
    refine ⟨?_, ?_, ?_⟩ <;> cases hr <;> cases ar <;>
      simp [handleSendFSEvents, fetchConversationsEvents, applyEvents, applyEvent,
        assistantReply, h1, h2]
  · intro mst mt' ar' c hmem
    simp only [handleSendModalEvents] at hmem
    split at hmem
    · simp at hmem
    · simp at hmem

/-- Witness for the amended C5 at a concrete input with a failing persistence
call on the full-screen surface and a send on the modal surface. -/
theorem C5_persistence_flow_witness :
    ChatEvent.callSendMessage "hi" ∈
      handleSendFSEvents ⟨[], "", false, [], none⟩ (some "hi") .err .err (.ok "fine") ∧
    ChatEvent.toast "Failed to send message. Please try again." ∈
      handleSendFSEvents ⟨[], "", false, [], none⟩ (some "hi") .err .err (.ok "fine") ∧
    ChatEvent.callSendMessage "hi" ∉
      handleSendModalEvents ⟨[], "", false⟩ (some "hi") (.ok "fine") := by
  obtain ⟨m1, -, m3, m4⟩ := C5_persistence_flow ⟨[], "", false, [], none⟩ (some "hi")
    .err .err (.ok "fine") (by decide) rfl
  exact ⟨m1, (m3 rfl).1, m4 ⟨[], "", false⟩ (some "hi") (.ok "fine") "hi"⟩

/-- Claim C6: the history date formatter is a total function whose outputs are
exhaustively `"Unknown date"` (missing/falsy input), `"Invalid date"`
(unparsable input) or the parsed date rendered as `MMM d, yyyy`; in particular
`"2024-03-05"` renders as `"Mar 5, 2024"`. -/
theorem C6_formatDate_total (s : String) (h1 : s ≠ "") (h2 : parseISO s = none) :
    formatDate none = "Unknown date" ∧
    formatDate (some "") = "Unknown date" ∧
    formatDate (some s) = "Invalid date" ∧
    (∀ t d, parseISO t = some d → formatDate (some t) = formatMMMdyyyy d) ∧
    formatDate (some "2024-03-05") = "Mar 5, 2024" ∧
    (∀ ds : Option String, formatDate ds = "Unknown date" ∨ formatDate ds = "Invalid date" ∨
      ∃ d, formatDate ds = formatMMMdyyyy d) := by
  refine ⟨by decide, by decide, ?_, ?_, by decide, ?_⟩
  · simp [formatDate, h1, h2]
  · intro t d hd
    have ht : t ≠ "" := by
      intro h
      subst h
      rw [show parseISO "" = none from by decide] at hd
      exact Option.noConfusion hd
    simp [formatDate, ht, hd]
  · intro ds
    cases ds with
    | none => exact Or.inl rfl
    | some s' =>
      by_cases h : s' = ""
      · subst h; exact Or.inl (by decide)
      · cases hp : parseISO s' with
        | none => exact Or.inr (Or.inl (by simp [formatDate, h, hp]))
        | some d => exact Or.inr (Or.inr ⟨d, by simp [formatDate, h, hp]⟩)

/-- Witness for C6 at the unparsable input `"abc"` and the spec's example date. -/
theorem C6_formatDate_total_witness :
    formatDate (some "abc") = "Invalid date" ∧
    formatDate (some "2024-03-05") = "Mar 5, 2024" := by
  obtain ⟨-, -, h3, -, h5, -⟩ := C6_formatDate_total "abc" (by decide) (by decide)
  exact ⟨h3, h5⟩

/-- Claim C7: deleting the active conversation with a successful backend call
resets the view to a fresh empty conversation: along the handler's effect
sequence there is a point (right after the `handleNewConversation` reset)
where the active conversation id is `null` and the messages and input are
empty; and when no initial prompt was supplied to the surface, the settled
final state keeps exactly that fresh empty state. -/
theorem C7_delete_active_resets (st : FSState) (cid : String) (hr : HistoryResult)
    (im : Option String) (sr : SendMsgResult) (hr2 : HistoryResult) (ar : AIResult)
    (hactive : st.currentConversationId = some cid) :
    (∃ es₁ es₂,
      handleDeleteConversationEvents st cid true hr im sr hr2 ar = es₁ ++ es₂ ∧
      (applyEvents st es₁).currentConversationId = none ∧
      (applyEvents st es₁).messages = [] ∧
      (applyEvents st es₁).input = "") ∧
    (im = none →
      (applyEvents st
        (handleDeleteConversationEvents st cid true hr im sr hr2 ar)).currentConversationId =
        none ∧
      (applyEvents st (handleDeleteConversationEvents st cid true hr im sr hr2 ar)).messages =
        [] ∧
      (applyEvents st (handleDeleteConversationEvents st cid true hr im sr hr2 ar)).input =
        "") := by
  constructor
  · refine ⟨ChatEvent.callDeleteConversation cid ::
      (fetchConversationsEvents hr ++
        [.setConversationId none, .setMessages [], .setInput ""]),
      (match im with
        | some t => if t = "" then [] else handleSendFSEvents st (some t) sr hr2 ar
        | none => []) ++ [.toast "Conversation deleted"], ?_, ?_, ?_, ?_⟩
    · simp [handleDeleteConversationEvents, handleNewConversation, hactive]
    · cases hr <;> simp [fetchConversationsEvents, applyEvents, applyEvent]
    · cases hr <;> simp [fetchConversationsEvents, applyEvents, applyEvent]
    · cases hr <;> simp [fetchConversationsEvents, applyEvents, applyEvent]
  · rintro rfl
    refine ⟨?_, ?_, ?_⟩ <;> cases hr <;>
      simp [handleDeleteConversationEvents, handleNewConversation, fetchConversationsEvents,
        applyEvents, applyEvent, hactive]

/-- Witness for C7: deleting the active conversation `"c1"` with no initial
prompt settles in the fresh empty state. -/
theorem C7_delete_active_resets_witness :
    (applyEvents ⟨[⟨.user, "q"⟩], "draft", false, [], some "c1"⟩
      (handleDeleteConversationEvents ⟨[⟨.user, "q"⟩], "draft", false, [], some "c1"⟩
        "c1" true (.ok []) none .err .err .err)).currentConversationId = none ∧
    (applyEvents ⟨[⟨.user, "q"⟩], "draft", false, [], some "c1"⟩
      (handleDeleteConversationEvents ⟨[⟨.user, "q"⟩], "draft", false, [], some "c1"⟩
        "c1" true (.ok []) none .err .err .err)).messages = [] ∧
    (applyEvents ⟨[⟨.user, "q"⟩], "draft", false, [], some "c1"⟩
      (handleDeleteConversationEvents ⟨[⟨.user, "q"⟩], "draft", false, [], some "c1"⟩
        "c1" true (.ok []) none .err .err .err)).input = "" := by
  obtain ⟨-, h2⟩ := C7_delete_active_resets ⟨[⟨.user, "q"⟩], "draft", false, [], some "c1"⟩
    "c1" (.ok []) none .err .err .err rfl
  exact h2 rfl

/-- Claim C8: a password-form submission failing local validation (empty
current password, empty or too-short new password, or mismatched
confirmation) performs only the error-map update — in particular no network
call — and the corresponding field-scoped message is set. -/
theorem C8_validation_blocks (fd : PasswordFormData) (r : UpdateResult)
    (h : fd.currentPassword = "" ∨ fd.newPassword = "" ∨ fd.newPassword.length < 8 ∨
      fd.confirmPassword ≠ fd.newPassword) :
    handleSubmitEvents fd r = [.setErrors (validateErrors fd)] ∧
    (∀ c n, PwEvent.callUpdate c n ∉ handleSubmitEvents fd r) ∧
    (fd.currentPassword = "" →
      (validateErrors fd).currentPassword = some "Current password is required") ∧
    (fd.newPassword = "" →
      (validateErrors fd).newPassword = some "New password is required") ∧
    (fd.newPassword ≠ "" → fd.newPassword.length < 8 →
      (validateErrors fd).newPassword = some "Password must be at least 8 characters") ∧
    (fd.confirmPassword ≠ fd.newPassword →
      (validateErrors fd).confirmPassword = some "Passwords do not match") := by
  have hne : errorsEmpty (validateErrors fd) = false := by
    rcases h with h | h | h | h
    · simp [errorsEmpty, validateErrors, h]
    · simp [errorsEmpty, validateErrors, h]
    · by_cases h0 : fd.newPassword = ""
      · simp [errorsEmpty, validateErrors, h0]
      · simp [errorsEmpty, validateErrors, h0, h]
    · simp [errorsEmpty, validateErrors, Ne.symm h]
  have he : handleSubmitEvents fd r = [.setErrors (validateErrors fd)] := by
    simp [handleSubmitEvents, hne]
  refine ⟨he, ?_, ?_, ?_, ?_, ?_⟩
  · intro c n hmem
    rw [he] at hmem
    simp at hmem
  · intro h'; simp [validateErrors, h']
  · intro h'; simp [validateErrors, h']
  · intro h' hlen; simp [validateErrors, h', hlen]
  · intro h'; simp [validateErrors, Ne.symm h']

/-- Witness for C8: a 5-character new password blocks submission with the
length error. -/
theorem C8_validation_blocks_witness :
    handleSubmitEvents ⟨"old", "short", "short"⟩ .ok =
      [.setErrors (validateErrors ⟨"old", "short", "short"⟩)] ∧
    (validateErrors ⟨"old", "short", "short"⟩).newPassword =
      some "Password must be at least 8 characters" := by
  obtain ⟨h1, -, -, -, h5, -⟩ := C8_validation_blocks ⟨"old", "short", "short"⟩ .ok
    (Or.inr (Or.inr (Or.inl (by decide))))
  exact ⟨h1, h5 (by decide) (by decide)⟩

/-- Claim C9: once local validation passes, a successful update clears all
three fields and toasts success; a 401 rejection replaces the error map with
only the current-password error plus an error toast and performs no
`setFormData` (field values untouched); any other rejection only produces the
generic failure toast. -/
theorem C9_submission_outcomes (fd : PasswordFormData)
    (h : errorsEmpty (validateErrors fd) = true) :
    handleSubmitEvents fd .ok =
      [.setErrors (validateErrors fd), .setLoading true,
        .callUpdate fd.currentPassword fd.newPassword,
        .toast "Password updated successfully", .setFormData ⟨"", "", ""⟩,
        .setLoading false] ∧
    handleSubmitEvents fd (.err (some 401)) =
      [.setErrors (validateErrors fd), .setLoading true,
        .callUpdate fd.currentPassword fd.newPassword,
        .setErrors ⟨some "Current password is incorrect", none, none⟩,
        .toast "Current password is incorrect", .setLoading false] ∧
    (∀ status, status ≠ some 401 →
      handleSubmitEvents fd (.err status) =
        [.setErrors (validateErrors fd), .setLoading true,
          .callUpdate fd.currentPassword fd.newPassword,
          .toast "Failed to update password", .setLoading false]) := by
  refine ⟨?_, ?_, ?_⟩
  · simp [handleSubmitEvents, h]
  · simp [handleSubmitEvents, h]
  · intro status hs
    simp [handleSubmitEvents, h, hs]

/-- Witness for C9 at a concrete valid submission. -/
theorem C9_submission_outcomes_witness :
    handleSubmitEvents ⟨"oldpassword", "newpassword", "newpassword"⟩ .ok =
      [.setErrors (validateErrors ⟨"oldpassword", "newpassword", "newpassword"⟩),
        .setLoading true, .callUpdate "oldpassword" "newpassword",
        .toast "Password updated successfully", .setFormData ⟨"", "", ""⟩,
        .setLoading false] := by
  obtain ⟨h1, -, -⟩ :=
    C9_submission_outcomes ⟨"oldpassword", "newpassword", "newpassword"⟩ (by decide)
  exact h1

/-- Claim C10: every request body the submission handler ever sends to the
password-update endpoint is exactly the current and new password, and the
bodies sent are the same whatever value the confirmation field holds — the
confirmation is never transmitted and influences nothing beyond the
equality check in validation. -/
theorem C10_confirm_not_transmitted (fd : PasswordFormData) (r : UpdateResult) :
    (∀ c n, PwEvent.callUpdate c n ∈ handleSubmitEvents fd r →
      c = fd.currentPassword ∧ n = fd.newPassword) ∧
    (∀ confirm : String,
      requestBodies (handleSubmitEvents { fd with confirmPassword := confirm } r) ≠ [] →
      requestBodies (handleSubmitEvents { fd with confirmPassword := confirm } r) =
        [(fd.currentPassword, fd.newPassword)]) := by
  constructor
  · intro c n hmem
    by_cases h : errorsEmpty (validateErrors fd) = false
    · rw [show handleSubmitEvents fd r = [.setErrors (validateErrors fd)] from by
        simp [handleSubmitEvents, h]] at hmem
      simp at hmem
    · have h' : errorsEmpty (validateErrors fd) = true := by simpa using h
      rcases r with _ | status
      · simp [handleSubmitEvents, h'] at hmem
        exact hmem
      · by_cases hs : status = some 401 <;>
          simp [handleSubmitEvents, h', hs] at hmem <;> exact hmem
  · intro confirm hne
    rcases requestBodies_handleSubmit { fd with confirmPassword := confirm } r with hz | hz
    · exact absurd hz hne
    · simpa using hz

/-- Witness for C10 at a concrete submission that reaches the network. -/
theorem C10_confirm_not_transmitted_witness :
    requestBodies (handleSubmitEvents ⟨"oldpasswd", "newpasswd1", "newpasswd1"⟩ .ok) =
      [("oldpasswd", "newpasswd1")] := by
  obtain ⟨-, h2⟩ := C10_confirm_not_transmitted ⟨"oldpasswd", "newpasswd1", "zzz"⟩ .ok
  exact h2 "newpasswd1" (by decide)

end Dottie
